import Mathlib

/-!
Shallow embedding of the user/auth backend of the social-media repository.

The embedded code lives in:
* backend/models/User.js            (schema, pre-save bcrypt hook, comparePassword)
* backend/controllers/authController.js   (registerUser, signInUser, resetPassword)
* backend/controllers/userController.js   (getUserById, deleteUser, follow controller:
                                           followUser, unfollowUser, getFollowers)
* backend/middleware/authMiddleware.js    (protect)
* mern-backend-template/controllers/authController.js (loginUser)
* mern-backend-template/controllers/userController.js (updateUser)

The document store is a list of user documents; each controller is a pure
function from its request data and the store to a response and the new store.
-/

/-- JavaScript regex `\s` / `String.prototype.trim` whitespace class
(approximated by Lean's whitespace predicate; all inputs of interest are ASCII). -/
def isJsWhitespace (c : Char) : Bool := c.isWhitespace

/-- `String.prototype.trim`: drop leading and trailing whitespace. -/
def jsTrimList (l : List Char) : List Char :=
  ((l.dropWhile isJsWhitespace).reverse.dropWhile isJsWhitespace).reverse

/-- `String.prototype.trim` on strings. -/
def jsTrim (s : String) : String := String.mk (jsTrimList s.toList)

/-- `String.prototype.toLowerCase` (ASCII case mapping; the embedded claims
only evaluate it on ASCII data). -/
def jsLower (s : String) : String := String.mk (s.toList.map Char.toLower)

/-- Hexadecimal digit, as accepted by a BSON ObjectId string. -/
def isHexCh (c : Char) : Bool :=
  c.isDigit || (decide ('a' ≤ c) && decide (c ≤ 'f')) || (decide ('A' ≤ c) && decide (c ≤ 'F'))

/-- `mongoose.Types.ObjectId.isValid`: a 24-character hex string, or any
12-character string (interpreted as 12 raw bytes). -/
def isValidObjectId (s : String) : Bool :=
  s.length == 12 || (s.length == 24 && s.toList.all isHexCh)

/-- One or more decimal digits. -/
def digits1 (l : List Char) : Bool := !l.isEmpty && l.all Char.isDigit

/-- Exponent suffix of a JS decimal literal: empty, or `e`/`E`, an optional
sign, and at least one digit. -/
def expPartOk : List Char → Bool
  | [] => true
  | c :: r =>
    (c == 'e' || c == 'E') &&
      (match r with
        | '+' :: r2 => digits1 r2
        | '-' :: r2 => digits1 r2
        | r2 => digits1 r2)

/-- Unsigned JS decimal number body: `digits [. digits] [exp]` or `. digits [exp]`,
with at least one digit in the mantissa. -/
def decNumOk (l : List Char) : Bool :=
  let ds := l.takeWhile Char.isDigit
  let rest := l.dropWhile Char.isDigit
  match rest with
  | '.' :: r2 =>
    let ds2 := r2.takeWhile Char.isDigit
    let r3 := r2.dropWhile Char.isDigit
    (!ds.isEmpty || !ds2.isEmpty) && expPartOk r3
  | r => !ds.isEmpty && expPartOk r

/-- JS decimal literal with an optional leading sign. -/
def signedDecOk : List Char → Bool
  | [] => decNumOk []
  | c :: r => if c == '+' || c == '-' then decNumOk r else decNumOk (c :: r)

/-- `0x`/`0b`/`0o` radix literal accepted by `Number(...)`. -/
def radixNumOk : List Char → Bool
  | '0' :: c :: r =>
    ((c == 'x' || c == 'X') && !r.isEmpty && r.all isHexCh) ||
    ((c == 'b' || c == 'B') && !r.isEmpty && r.all (fun d => d == '0' || d == '1')) ||
    ((c == 'o' || c == 'O') && !r.isEmpty && r.all (fun d => decide ('0' ≤ d) && decide (d ≤ '7')))
  | _ => false

/-- `Infinity` literals accepted by `Number(...)`. -/
def infinityLit (l : List Char) : Bool :=
  l == "Infinity".toList || l == "+Infinity".toList || l == "-Infinity".toList

/-- `isNaN(s)` for a string argument: `Number(s)` is NaN.  The empty (or
all-whitespace) string converts to 0, so it is NOT NaN. -/
def jsIsNaNStr (s : String) : Bool :=
  let t := jsTrimList s.toList
  if t.isEmpty then false
  else !(signedDecOk t || radixNumOk t || infinityLit t)

/-- `/<script>|<\/script>/i.test(s)` - case-insensitive substring test. -/
def containsScriptTag (s : String) : Bool :=
  decide (List.IsInfix ("<script>").toList (jsLower s).toList) ||
  decide (List.IsInfix ("</script>").toList (jsLower s).toList)

/-- `/\s/.test(s)`: does the string contain whitespace? -/
def hasWhitespace (s : String) : Bool := s.toList.any isJsWhitespace

/-- Backend User-schema email pattern `/^\S+@\S+\.\S+$/`: no whitespace, and an
`@` with at least one character before it followed (two or more positions
later) by a `.` with at least one character after it. -/
def emailMatchLoose (s : String) : Bool :=
  let l := s.toList
  (!l.any isJsWhitespace) &&
    (List.range l.length).any (fun i =>
      l.getD i ' ' == '@' && 1 ≤ i &&
        (List.range l.length).any (fun j =>
          l.getD j ' ' == '.' && i + 2 ≤ j && j + 1 < l.length))

/-- Split a character list at every occurrence of a separator (the semantics
of `String.prototype.split` with a one-character separator). -/
def splitOnChar (sep : Char) : List Char → List (List Char)
  | [] => [[]]
  | c :: r =>
    let rest := splitOnChar sep r
    if c == sep then [] :: rest
    else
      match rest with
      | h :: t => (c :: h) :: t
      | [] => [[c]]

/-- Template login email pattern `/^[^\s@]+@[^\s@]+\.[^\s@]+$/`: exactly one
`@` separating a nonempty local part from a domain that contains an interior
dot; no whitespace anywhere. -/
def jsEmailStrict (s : String) : Bool :=
  match splitOnChar '@' s.toList with
  | [l, d] =>
    !l.isEmpty && !(l.any isJsWhitespace) && !(d.any isJsWhitespace) &&
      ((d.drop 1).dropLast).contains '.'
  | _ => false

/-- `/[\u{1F600}-\u{1F64F}]/u.test(s)`: emoticon code-point range test. -/
def hasEmoji (s : String) : Bool :=
  s.toList.any (fun c => 0x1F600 ≤ c.toNat && c.toNat ≤ 0x1F64F)

/-- `s.includes("..")`. -/
def containsDoubleDot (s : String) : Bool :=
  decide (List.IsInfix ("..").toList s.toList)

/-- Signup name pattern `/^[A-Za-z0-9\s]+$/`. -/
def isLatinName (s : String) : Bool :=
  let l := s.toList
  !l.isEmpty && l.all (fun c => c.isAlphanum || isJsWhitespace c)

/-- Signup name pattern `/^[\p{L}\p{N}\s-]+$/u`.  Beyond ASCII the Unicode
letter/number categories are approximated by accepting every non-ASCII
code point; the claims only evaluate this on ASCII names, where the
embedding is exact. -/
def isUnicodeName (s : String) : Bool :=
  let l := s.toList
  !l.isEmpty && l.all (fun c => c.isAlphanum || isJsWhitespace c || c == '-' || 0x80 ≤ c.toNat)

/-- The string content of a user document's `password` field: either the raw
plaintext (as assigned by a controller before the pre-save hook runs) or a
bcrypt hash.  A hash records the salt and the exact string that was hashed,
which is precisely the information bcrypt verification consumes. -/
inductive PwField where
  | plain (p : String)
  | hashed (salt : Nat) (p : String)
deriving DecidableEq

/-- The literal string stored in the field (a bcrypt hash renders as a
`$2b$10$<salt>$<payload>` style string, never equal to its payload). -/
def PwField.render : PwField → String
  | .plain p => p
  | .hashed salt p => "$2b$10$" ++ toString salt ++ "$" ++ p

/-- `bcrypt.hash(s, 10)` applied to the current field content, with the
nondeterministic salt passed in explicitly. -/
def bcryptHash (salt : Nat) (pw : PwField) : PwField := .hashed salt pw.render

/-- `bcrypt.compare(entered, stored)`: succeeds exactly when `stored` is a
hash of `entered`; a plaintext (non-hash) stored value never verifies. -/
def bcryptCompare (entered : String) : PwField → Bool
  | .plain _ => false
  | .hashed _ p => entered == p

/-- A User document (backend/models/User.js).

The `isPrivate` flag is *Modelled from the spec*: the `getFollowers`
controller and the follow tests read and set an `isPrivate` field, but no
schema under src/ declares it; the spec's "account is marked private" fixes
its meaning as a boolean on the user document. -/
structure User where
  id : String
  name : String
  displayName : String
  email : String
  password : PwField
  profilePicture : String
  bio : String
  interests : List String
  resetPasswordToken : Option String
  resetPasswordExpires : Option Nat
  role : String
  active : Bool
  isPrivate : Bool
  followers : List String
  following : List String
deriving DecidableEq

/-- The document store: the `users` collection. -/
abbrev Store := List User

/-- `User.findById(id)`. -/
def findById (id : String) (store : Store) : Option User :=
  store.find? (fun u => u.id == id)

/-- `User.findOne({email})`. -/
def findOneByEmail (email : String) (store : Store) : Option User :=
  store.find? (fun u => u.email == email)

/-- `User.findOne({resetPasswordToken: token, resetPasswordExpires: {$gt: Date.now()}})`. -/
def findByResetToken (token : String) (now : Nat) (store : Store) : Option User :=
  store.find? (fun u =>
    u.resetPasswordToken == some token &&
      match u.resetPasswordExpires with
      | some e => now < e
      | none => false)

/-- Persisting an already-existing document: replace the stored document(s)
carrying its id. -/
def saveUser (u : User) (store : Store) : Store :=
  store.map (fun v => if v.id == u.id then u else v)

/-- Mongoose full-document validation, run by `save()` before the pre-save
hooks: required nonempty name/email, the schema email pattern, `minlength: 8`
on the password string, the role enum, and `maxlength: 150` on the bio. -/
def userValidate (u : User) : Bool :=
  u.name != "" && u.email != "" && emailMatchLoose u.email &&
    (match u.password with
      | .plain p => 8 ≤ p.length
      | .hashed _ _ => true) &&
    (u.role == "admin" || u.role == "user") &&
    u.bio.length ≤ 150

/-- An HTTP JSON response: status code and `message` field. -/
structure Resp where
  status : Nat
  message : String
deriving DecidableEq

/-- JS truthiness of an optional request-body string field: absent and `""`
are both falsy. -/
def jsTruthy : Option String → Bool
  | none => false
  | some s => s != ""

/-- `registerUser` (backend/controllers/authController.js).  `newId` is the
store-assigned identifier of the new document and `salt` the bcrypt salt drawn
by the pre-save hook.  `save()` first runs schema validation (on the still
plaintext password), then the pre-save hook hashes; a validation failure is
caught by the handler as a 500. -/
def registerUser (name email password : String) (newId : String) (salt : Nat)
    (store : Store) : Resp × Store :=
  let normalizedEmail := jsTrim (jsLower email)
  match findOneByEmail normalizedEmail store with
  | some _ => (⟨400, "This email is already in use. Try logging in instead."⟩, store)
  | none =>
    if !(isLatinName name || isUnicodeName name) then
      (⟨400, "Invalid name format. Name can contain letters, numbers, and spaces."⟩, store)
    else
      let newUser : User := {
        id := newId, name := jsTrim name, displayName := "", email := normalizedEmail,
        password := .plain password, profilePicture := "", bio := "", interests := [],
        resetPasswordToken := none, resetPasswordExpires := none, role := "user",
        active := true, isPrivate := false, followers := [], following := [] }
      if userValidate newUser then
        (⟨201, "User registered successfully."⟩,
          store ++ [{ newUser with password := bcryptHash salt newUser.password }])
      else
        (⟨500, "Server error. Please try again later."⟩, store)

/-- `signInUser` (backend/controllers/authController.js).  Reads the store
only; a successful signin issues a token, which is not part of the store. -/
def signInUser (email password : String) (store : Store) : Resp :=
  let normalizedEmail := jsTrim (jsLower email)
  match findOneByEmail normalizedEmail store with
  | none => ⟨404, "No account found with this email. Sign up instead?"⟩
  | some user =>
    if !(bcryptCompare password user.password) then
      ⟨401, "Incorrect password. Try again."⟩
    else
      ⟨200, "Welcome back, " ++ user.name ++ "!"⟩

/-- `resetPassword` (backend/controllers/authController.js).  `now` is
`Date.now()` at the time of the call; `salt` is the bcrypt salt drawn by the
pre-save hook when the modified password is hashed. -/
def resetPassword (token : String) (newPassword : String) (now : Nat) (salt : Nat)
    (store : Store) : Resp × Store :=
  if token == "" then (⟨404, "Token is required."⟩, store)
  else if newPassword == "" then (⟨400, "New password is required."⟩, store)
  else if newPassword.length < 8 then
    (⟨400, "Password must be at least 8 characters long."⟩, store)
  else if newPassword.length > 64 then
    (⟨400, "Password is too long. Max length is 64 characters."⟩, store)
  else if hasWhitespace newPassword then
    (⟨400, "Password cannot contain spaces."⟩, store)
  else
    match findByResetToken token now store with
    | none => (⟨400, "Invalid or expired password reset token."⟩, store)
    | some user =>
      if !user.active then (⟨400, "User is inactive or deleted."⟩, store)
      else
        let updated := { user with
          password := PwField.plain newPassword,
          resetPasswordToken := none,
          resetPasswordExpires := none }
        if userValidate updated then
          (⟨200, "Password reset successfully. You can now sign in."⟩,
            saveUser { updated with password := bcryptHash salt updated.password } store)
        else (⟨500, "Server error. Please try again later."⟩, store)

/-- `loginUser` (mern-backend-template/controllers/authController.js), the
enumeration-safe signin variant.  An absent body field and `""` behave
identically under JS truthiness, so both are encoded as `""`. -/
def loginUser (email password : String) (store : Store) : Resp :=
  let errors :=
    (if email == "" then ["Email is required"] else []) ++
    (if password == "" then ["Password is required"] else []) ++
    (if email != "" && !(jsEmailStrict (jsTrim email)) then
      ["Please enter a valid email address"] else []) ++
    (if email != "" && (jsTrim email).length > 255 then
      ["Email must be at most 255 characters long"] else []) ++
    (if email != "" && hasEmoji email then
      ["Please enter a valid email address"] else []) ++
    (if email != "" && containsDoubleDot email then
      ["Please enter a valid email address"] else [])
  if errors != [] then ⟨400, String.intercalate ", " errors⟩
  else
    match findOneByEmail (jsTrim email) store with
    | none => ⟨401, "Invalid credentials"⟩
    | some user =>
      if !(bcryptCompare password user.password) then ⟨401, "Invalid credentials"⟩
      else ⟨200, "Login successful"⟩

/-- The fields the template `updateUser` request body may carry (an absent
field is `none`; unknown extra fields are passed through `$set` unmodelled,
and `_id` is deleted by the handler before the update). -/
structure UpdateBody where
  name : Option String := none
  email : Option String := none
  password : Option String := none
  bio : Option String := none
  displayName : Option String := none
  role : Option String := none
deriving DecidableEq

/-- `$set` of the provided body fields on a found document (`new: true`).
Mongoose update-validator failures are not modelled; no claim reaches them. -/
def applySet (body : UpdateBody) (u : User) : User :=
  { u with
    name := body.name.getD u.name,
    email := body.email.getD u.email,
    bio := body.bio.getD u.bio,
    displayName := body.displayName.getD u.displayName,
    role := body.role.getD u.role }

/-- `updateUser` (mern-backend-template/controllers/userController.js), the
restricted-field update variant. -/
def updateUser (userId requesterId requesterRole : String) (body : UpdateBody)
    (store : Store) : Resp × Store :=
  if !(isValidObjectId userId) then (⟨400, "Invalid user ID"⟩, store)
  else if requesterRole != "admin" && requesterId != userId then
    (⟨403, "Access denied"⟩, store)
  else if jsTruthy body.password then (⟨400, "Password update not allowed"⟩, store)
  else
    match findById userId store with
    | none => (⟨404, "User not found"⟩, store)
    | some u => (⟨200, "User updated successfully"⟩, saveUser (applySet body u) store)

/-- `followUser` (backend follow controller).  `currentUser.following` is an
unpopulated ObjectId array, so its `includes(userId)` membership test works
via mongoose's cast of the probe string to an ObjectId. -/
def followUser (userId currentUserId : String) (store : Store) : Resp × Store :=
  if userId == currentUserId then (⟨400, "You cannot follow yourself."⟩, store)
  else
    match findById userId store, findById currentUserId store with
    | some userToFollow, some currentUser =>
      if currentUser.following.contains userId then
        (⟨400, "You are already following this user."⟩, store)
      else
        let currentUser2 := { currentUser with following := currentUser.following ++ [userId] }
        let userToFollow2 := { userToFollow with followers := userToFollow.followers ++ [currentUserId] }
        (⟨200, "You are now following " ++ userToFollow.name ++ "."⟩,
          saveUser userToFollow2 (saveUser currentUser2 store))
    | _, _ => (⟨404, "User not found."⟩, store)

/-- `unfollowUser` (backend follow controller). -/
def unfollowUser (userId currentUserId : String) (store : Store) : Resp × Store :=
  if !(isValidObjectId userId) then (⟨400, "Invalid user ID."⟩, store)
  else if userId == currentUserId then (⟨400, "You cannot unfollow yourself."⟩, store)
  else
    match findById userId store, findById currentUserId store with
    | some userToUnfollow, some currentUser =>
      if !(currentUser.following.contains userId) then
        (⟨400, "You are not following this user."⟩, store)
      else
        let currentUser2 := { currentUser with
          following := currentUser.following.filter (fun i => i != userId) }
        let userToUnfollow2 := { userToUnfollow with
          followers := userToUnfollow.followers.filter (fun i => i != currentUserId) }
        (⟨200, "You have unfollowed " ++ userToUnfollow.name ++ "."⟩,
          saveUser userToUnfollow2 (saveUser currentUser2 store))
    | _, _ => (⟨404, "User not found."⟩, store)

/-- What `.populate("followers", "name profilePicture")` substitutes for one
stored follower id: the referenced document's selected fields (unresolvable
references are dropped from the populated array). -/
structure FollowerSummary where
  id : String
  name : String
  profilePicture : String
deriving DecidableEq

/-- Populate a followers id array against the store. -/
def populateFollowers (ids : List String) (store : Store) : List FollowerSummary :=
  ids.filterMap (fun fid =>
    (findById fid store).map (fun f => ⟨f.id, f.name, f.profilePicture⟩))

/-- Comparison underlying `user.followers.includes(currentUserId)` AFTER
population: each element is a subdocument while the probe is the requester id
string.  Neither JS SameValueZero / loose equality nor mongoose's deepEqual
ever equates a document with a string, so the comparison is constantly
false — regardless of the follower's actual id. -/
def docEqStr (_follower : FollowerSummary) (_probe : String) : Bool := false

/-- `populatedFollowers.includes(currentUserId)`. -/
def populatedIncludes (l : List FollowerSummary) (probe : String) : Bool :=
  l.any (fun d => docEqStr d probe)

/-- Response of `getFollowers`: an error message or the populated list. -/
structure FollowersResp where
  status : Nat
  message : Option String
  followers : Option (List FollowerSummary)
deriving DecidableEq

/-- `getFollowers` (backend follow controller). -/
def getFollowers (userId currentUserId : String) (store : Store) : FollowersResp :=
  if !(isValidObjectId userId) then ⟨400, some "Invalid user ID.", none⟩
  else
    match findById userId store with
    | none => ⟨404, some "User not found.", none⟩
    | some user =>
      let populated := populateFollowers user.followers store
      if user.isPrivate && !(populatedIncludes populated currentUserId) then
        ⟨403, some "This user\x27s followers list is private.", none⟩
      else ⟨200, none, some populated⟩

/-- Response of `getUserById`: an error message or the user document (the
`-password` projection of the payload is not modelled; no claim reads it). -/
structure UserResp where
  status : Nat
  message : Option String
  user : Option User
deriving DecidableEq

/-- `getUserById` (backend/controllers/userController.js).  `reqUser` is the
acting identity attached by the `protect` middleware; when it is null the
handler's very first read `req.user.id` throws, and the catch block answers
500 "Server error". -/
def getUserById (userId : String) (reqUser : Option User) (store : Store) : UserResp :=
  match reqUser with
  | none => ⟨500, some "Server error", none⟩
  | some requester =>
    let requesterId := requester.id
    let isAdmin := requester.role == "admin"
    if !isAdmin && userId != requesterId then ⟨403, some "Access denied", none⟩
    else if containsScriptTag userId then ⟨400, some "Invalid user ID", none⟩
    else if !(isValidObjectId userId) || !(jsIsNaNStr userId) || userId.length > 24 then
      ⟨404, some "User not found", none⟩
    else
      match findById userId store with
      | none => ⟨404, some "User not found", none⟩
      | some user => ⟨200, none, some user⟩

/-- `deleteUser` (identical in backend and template userController).  Document
ids are the store's primary key, so `findByIdAndDelete` removes exactly the
documents carrying `userId`. -/
def deleteUser (userId requesterId requesterRole : String) (store : Store) : Resp × Store :=
  if !(isValidObjectId userId) then (⟨400, "Invalid user ID"⟩, store)
  else if requesterId != userId && requesterRole != "admin" then
    (⟨403, "Access denied"⟩, store)
  else
    match findById userId store with
    | none => (⟨404, "User not found"⟩, store)
    | some _ =>
      let store2 := store.filter (fun u => u.id != userId)
      if requesterId == userId then (⟨200, "Your account has been deleted"⟩, store2)
      else (⟨200, "User deleted successfully"⟩, store2)

/-- A bearer token as seen by `jwt.verify`: either it verifies to its payload
(subject id and optional role) or verification throws. -/
inductive Token where
  | valid (id : String) (role : Option String)
  | invalid
deriving DecidableEq

/-- The `protect` middleware (backend/middleware/authMiddleware.js) composed
with the `getUserById` handler, as wired at GET /api/users/:userId.  On a
verified token the middleware attaches `User.findById(decoded.id)` — possibly
null — as `req.user` and unconditionally calls the controller. -/
def protectGetUserById (tok : Option Token) (userId : String) (store : Store) : UserResp :=
  match tok with
  | none => ⟨401, some "Not authorized, no token provided", none⟩
  | some Token.invalid => ⟨401, some "Invalid token, authentication failed", none⟩
  | some (Token.valid id _) => getUserById userId (findById id store) store

/-- Query parameters of GET /api/users that filter the result set. -/
structure ListQuery where
  role : Option String := none
  active : Option Bool := none
  search : Option String := none
deriving DecidableEq

/-- Case-insensitive substring search across name, email and displayName. -/
def searchMatches (q : String) (u : User) : Bool :=
  let needle := (jsLower q).toList
  decide (List.IsInfix needle (jsLower u.name).toList) ||
  decide (List.IsInfix needle (jsLower u.email).toList) ||
  decide (List.IsInfix needle (jsLower u.displayName).toList)

/-- Does a user pass all the list filters? -/
def matchesListQuery (q : ListQuery) (u : User) : Bool :=
  (match q.role with | some r => u.role == r | none => true) &&
  (match q.active with | some a => u.active == a | none => true) &&
  (match q.search with | some s => searchMatches s u | none => true)

/-- Response of the list-users endpoint. -/
structure ListResp where
  status : Nat
  message : Option String
  users : List User
deriving DecidableEq

/-- Modelled from the spec: the `getAllUsers` handler wired at GET /api/users
in backend/routes/userRoutes.js is code of this repository that is not under
src/ (only its route registration and its tests are).  Spec section 4.6: the
list operation filters by `role` and `active` and by a sanitized
case-insensitive search across name/email/displayName, and "returns 404
NoUsersFound when the result set (after filters) is empty — a deliberate
design choice favoring explicit empty-state signaling over an empty array
with 200"; the repository tests pin the message text "No users found". -/
def getAllUsers (q : ListQuery) (store : Store) : ListResp :=
  let results := store.filter (matchesListQuery q)
  if results.isEmpty then ⟨404, some "No users found", []⟩
  else ⟨200, none, results⟩

/-- The store-mutating requests, for stating store invariants. -/
inductive Op where
  | register (name email password newId : String) (salt : Nat)
  | signin (email password : String)
  | reset (token newPassword : String) (now salt : Nat)
  | update (userId requesterId requesterRole : String) (body : UpdateBody)
  | delete (userId requesterId requesterRole : String)
  | follow (userId currentUserId : String)
  | unfollow (userId currentUserId : String)

/-- The store after serving one request. -/
def applyOp : Op → Store → Store
  | .register n e p i s, st => (registerUser n e p i s st).2
  | .signin _ _, st => st
  | .reset t np now s, st => (resetPassword t np now s st).2
  | .update u r rr b, st => (updateUser u r rr b st).2
  | .delete u r rr, st => (deleteUser u r rr st).2
  | .follow u c, st => (followUser u c st).2
  | .unfollow u c, st => (unfollowUser u c st).2

/-- Invariant: no user appears in its own followers or following list. -/
def SelfFree (store : Store) : Prop :=
  ∀ u ∈ store, u.id ∉ u.followers ∧ u.id ∉ u.following

/-! ### Helper lemmas about characters and lists -/

lemma digit_toNat_le (c : Char) (h : c.isDigit = true) : c.toNat ≤ 57 := by
  simp only [Char.isDigit, Bool.and_eq_true, decide_eq_true_eq] at h
  exact h.2

lemma digit_toLower (c : Char) (h : c.isDigit = true) : c.toLower = c := by
  have h2 := digit_toNat_le c h
  unfold Char.toLower
  rw [if_neg]
  omega

lemma digit_not_ws (c : Char) (h : c.isDigit = true) : isJsWhitespace c = false := by
  have h1 : c ≠ ' ' := fun e => by subst e; exact absurd h (by decide)
  have h2 : c ≠ '\t' := fun e => by subst e; exact absurd h (by decide)
  have h3 : c ≠ '\r' := fun e => by subst e; exact absurd h (by decide)
  have h4 : c ≠ '\n' := fun e => by subst e; exact absurd h (by decide)
  simp [isJsWhitespace, Char.isWhitespace, h1, h2, h3, h4]

lemma digit_isHex (c : Char) (h : c.isDigit = true) : isHexCh c = true := by
  simp [isHexCh, h]

lemma takeWhile_of_all {α : Type} (p : α → Bool) (l : List α)
    (h : ∀ x ∈ l, p x = true) : l.takeWhile p = l := by
  induction l with
  | nil => rfl
  | cons x xs ih =>
    simp only [List.takeWhile_cons, h x (by simp)]
    simp [ih (fun y hy => h y (by simp [hy]))]

lemma dropWhile_of_all {α : Type} (p : α → Bool) (l : List α)
    (h : ∀ x ∈ l, p x = true) : l.dropWhile p = [] := by
  induction l with
  | nil => rfl
  | cons x xs ih =>
    simp [List.dropWhile_cons, h x (by simp), ih (fun y hy => h y (by simp [hy]))]

lemma dropWhile_of_none {α : Type} (p : α → Bool) (l : List α)
    (h : ∀ x ∈ l, p x = false) : l.dropWhile p = l := by
  cases l with
  | nil => rfl
  | cons x xs => simp [List.dropWhile_cons, h x (by simp)]

lemma jsTrimList_of_no_ws (l : List Char)
    (h : ∀ c ∈ l, isJsWhitespace c = false) : jsTrimList l = l := by
  unfold jsTrimList
  rw [dropWhile_of_none _ l h,
    dropWhile_of_none _ l.reverse (fun c hc => h c (List.mem_reverse.1 hc)),
    List.reverse_reverse]

lemma toList_ne_nil (s : String) (h : s ≠ "") : s.toList ≠ [] := by
  cases s with
  | mk data =>
    intro he
    simp only [String.toList] at he
    exact h (by simp [he])

/-! ### Claim theorems -/

/-- C2: for every list-users request whose result set after applying the
filters (role, active, search) is empty, the response is 404 with the
NoUsersFound message, and the endpoint never answers 200 with an empty
users array. -/
theorem getAllUsers_empty_is_404 (q : ListQuery) (store : Store)
    (hempty : store.filter (matchesListQuery q) = []) :
    getAllUsers q store = ⟨404, some "No users found", []⟩ ∧
    ∀ (q2 : ListQuery) (st : Store),
      (getAllUsers q2 st).status = 200 → (getAllUsers q2 st).users ≠ [] := by
  constructor
  · simp [getAllUsers, hempty]
  · intro q2 st h
    unfold getAllUsers at *
    by_cases hf : st.filter (matchesListQuery q2) = []
    · simp [hf] at h
    · simp [List.isEmpty_iff, hf]

/-- Witness for C2 at a concrete query and store. -/
theorem getAllUsers_empty_is_404_witness :
    getAllUsers { role := some "admin" } [] = ⟨404, some "No users found", []⟩ ∧
    ∀ (q2 : ListQuery) (st : Store),
      (getAllUsers q2 st).status = 200 → (getAllUsers q2 st).users ≠ [] :=
  getAllUsers_empty_is_404 { role := some "admin" } [] (by decide)

/-- C9: a token that verifies but whose subject id matches no stored user
makes `protect` attach a null acting identity and still run the controller;
`getUserById` then answers 500 "Server error" (the caught null dereference),
not 401. -/
theorem protect_ghost_subject_is_500 (userId tokenId : String) (role : Option String)
    (store : Store) (hghost : findById tokenId store = none) :
    protectGetUserById (some (Token.valid tokenId role)) userId store
      = ⟨500, some "Server error", none⟩ ∧
    (protectGetUserById (some (Token.valid tokenId role)) userId store).status ≠ 401 := by
  refine ⟨?_, ?_⟩ <;> simp [protectGetUserById, getUserById, hghost]

/-- Witness for C9: an empty store holds no user for the token subject. -/
theorem protect_ghost_subject_is_500_witness :
    protectGetUserById (some (Token.valid "64a000000000000000000001" none))
        "64a000000000000000000002" [] = ⟨500, some "Server error", none⟩ ∧
    (protectGetUserById (some (Token.valid "64a000000000000000000001" none))
        "64a000000000000000000002" []).status ≠ 401 :=
  protect_ghost_subject_is_500 "64a000000000000000000002" "64a000000000000000000001"
    none [] (by decide)

/-- C7: a second `follow` of a target the actor already follows is rejected
with 400 "You are already following this user." and the store — hence the
actor's following list and the target's followers list — is unchanged. -/
theorem followUser_duplicate_rejected (userId currentUserId : String) (store : Store)
    (t c : User)
    (hneq : userId ≠ currentUserId)
    (ht : findById userId store = some t)
    (hc : findById currentUserId store = some c)
    (hdup : c.following.contains userId = true) :
    followUser userId currentUserId store
      = (⟨400, "You are already following this user."⟩, store) := by
  have e : (userId == currentUserId) = false := by simp [hneq]
  unfold followUser
  simp [e, ht, hc, hdup]
  exact List.mem_of_elem_eq_true hdup

/-- A sample user for witnesses: Alice, followed by Bob. -/
def uAlice : User :=
  { id := "a1a1a1a1a1a1a1a1a1a1a1a1", name := "Alice", displayName := "",
    email := "alice@example.com", password := .hashed 1 "Password123",
    profilePicture := "", bio := "", interests := [],
    resetPasswordToken := none, resetPasswordExpires := none, role := "user",
    active := true, isPrivate := false,
    followers := ["b2b2b2b2b2b2b2b2b2b2b2b2"], following := [] }

/-- A sample user for witnesses: Bob, who follows Alice. -/
def uBob : User :=
  { id := "b2b2b2b2b2b2b2b2b2b2b2b2", name := "Bob", displayName := "",
    email := "bob@example.com", password := .hashed 2 "Password456",
    profilePicture := "", bio := "", interests := [],
    resetPasswordToken := none, resetPasswordExpires := none, role := "user",
    active := true, isPrivate := false,
    followers := [], following := ["a1a1a1a1a1a1a1a1a1a1a1a1"] }

/-- Witness for C7: Bob already follows Alice; a second follow is a 400 and
the store is untouched. -/
theorem followUser_duplicate_rejected_witness :
    followUser "a1a1a1a1a1a1a1a1a1a1a1a1" "b2b2b2b2b2b2b2b2b2b2b2b2" [uAlice, uBob]
      = (⟨400, "You are already following this user."⟩, [uAlice, uBob]) :=
  followUser_duplicate_rejected "a1a1a1a1a1a1a1a1a1a1a1a1" "b2b2b2b2b2b2b2b2b2b2b2b2"
    [uAlice, uBob] uAlice uBob (by decide) (by decide) (by decide) (by decide)

/-- C8: on the restricted-field update variant, a PUT carrying a (truthy)
password field — from an authorized requester on a well-formed id — is
answered 400 "Password update not allowed" and the store, hence the stored
password hash and every other field of every user, is unchanged. -/
theorem updateUser_password_rejected (userId requesterId requesterRole : String)
    (body : UpdateBody) (store : Store) (p : String)
    (hid : isValidObjectId userId = true)
    (hauth : requesterRole = "admin" ∨ requesterId = userId)
    (hpw : body.password = some p) (hp : p ≠ "") :
    updateUser userId requesterId requesterRole body store
      = (⟨400, "Password update not allowed"⟩, store) := by
  have htr : jsTruthy body.password = true := by simp [jsTruthy, hpw, hp]
  unfold updateUser
  rcases hauth with h | h <;> simp [hid, htr, h]

/-- Witness for C8: Alice submits an update for herself containing a new
password; the request is rejected and the store untouched. -/
theorem updateUser_password_rejected_witness :
    updateUser "a1a1a1a1a1a1a1a1a1a1a1a1" "a1a1a1a1a1a1a1a1a1a1a1a1" "user"
        { password := some "NewPassword1" } [uAlice, uBob]
      = (⟨400, "Password update not allowed"⟩, [uAlice, uBob]) :=
  updateUser_password_rejected "a1a1a1a1a1a1a1a1a1a1a1a1" "a1a1a1a1a1a1a1a1a1a1a1a1"
    "user" { password := some "NewPassword1" } [uAlice, uBob] "NewPassword1"
    (by decide) (Or.inr rfl) rfl (by decide)

/-- C3: in the enumeration-safe signin variant, every credential failure —
whether the email matches no account or the email matches an account whose
password does not verify — is answered with the same uniform 401
"Invalid credentials" response. -/
theorem loginUser_uniform_invalid_credentials (email password : String) (store : Store)
    (hne : email ≠ "") (hpw : password ≠ "")
    (hfmt : jsEmailStrict (jsTrim email) = true)
    (hlen : (jsTrim email).length ≤ 255)
    (hemo : hasEmoji email = false)
    (hdot : containsDoubleDot email = false)
    (hbad : ∀ u, findOneByEmail (jsTrim email) store = some u →
      bcryptCompare password u.password = false) :
    loginUser email password store = ⟨401, "Invalid credentials"⟩ := by
  have e1 : (email == "") = false := by simp [hne]
  have e2 : (password == "") = false := by simp [hpw]
  have e3 : decide ((jsTrim email).length > 255) = false := by
    simp
    omega
  unfold loginUser
  simp only [e1, e2, hfmt, e3, hemo, hdot, Bool.not_true, Bool.not_false, Bool.and_false,
    Bool.and_true, Bool.false_eq_true, if_false, List.append_nil, List.nil_append]
  cases hfind : findOneByEmail (jsTrim email) store with
  | none => simp [hfind]
  | some u => simp [hfind, hbad u hfind]

/-- Witness for C3: Alice exists but the submitted password is wrong; the
response is the uniform 401. -/
theorem loginUser_uniform_invalid_credentials_witness :
    loginUser "alice@example.com" "WrongPassword1" [uAlice] = ⟨401, "Invalid credentials"⟩ :=
  loginUser_uniform_invalid_credentials "alice@example.com" "WrongPassword1" [uAlice]
    (by decide) (by decide) (by decide) (by decide) (by decide) (by decide)
    (fun u hu => by
      have h2 : findOneByEmail (jsTrim "alice@example.com") [uAlice] = some uAlice := by decide
      have h3 : u = uAlice := by
        rw [h2] at hu
        exact (Option.some.inj hu).symm
      subst h3
      decide)

lemma decNumOk_of_digits (l : List Char) (h0 : l ≠ [])
    (h : ∀ c ∈ l, c.isDigit = true) : decNumOk l = true := by
  unfold decNumOk
  rw [takeWhile_of_all _ l h, dropWhile_of_all _ l h]
  simp [expPartOk, h0]

lemma signedDecOk_of_digits (l : List Char) (h0 : l ≠ [])
    (h : ∀ c ∈ l, c.isDigit = true) : signedDecOk l = true := by
  cases l with
  | nil => exact absurd rfl h0
  | cons c r =>
    have hc := h c (by simp)
    have hplus : c ≠ '+' := fun e => by subst e; exact absurd hc (by decide)
    have hminus : c ≠ '-' := fun e => by subst e; exact absurd hc (by decide)
    have hred : signedDecOk (c :: r) = decNumOk (c :: r) := by
      simp [signedDecOk, hplus, hminus]
    rw [hred]
    exact decNumOk_of_digits (c :: r) h0 h

lemma jsIsNaNStr_of_digits (s : String) (h0 : s ≠ "")
    (h : ∀ c ∈ s.toList, c.isDigit = true) : jsIsNaNStr s = false := by
  have hws : ∀ c ∈ s.toList, isJsWhitespace c = false := fun c hc => digit_not_ws c (h c hc)
  have ht : jsTrimList s.toList = s.toList := jsTrimList_of_no_ws _ hws
  have hne := toList_ne_nil s h0
  unfold jsIsNaNStr
  rw [ht, if_neg (by simpa using hne), signedDecOk_of_digits s.toList hne h]
  simp

lemma containsScriptTag_of_digits (s : String)
    (h : ∀ c ∈ s.toList, c.isDigit = true) : containsScriptTag s = false := by
  have k : ∀ (pre : List Char), '<' ∈ pre → ¬ List.IsInfix pre (jsLower s).toList := by
    intro pre hlt hinf
    have hmem : '<' ∈ (jsLower s).toList := hinf.subset hlt
    have hmem2 : '<' ∈ s.toList.map Char.toLower := hmem
    obtain ⟨c, hc, he⟩ := List.mem_map.1 hmem2
    have hd := h c hc
    rw [digit_toLower c hd] at he
    subst he
    exact absurd hd (by decide)
  have k1 := k ("<script>").toList (by decide)
  have k2 := k ("</script>").toList (by decide)
  simp only [containsScriptTag, Bool.or_eq_false_iff, decide_eq_false_iff_not]
  exact ⟨by simpa using k1, by simpa using k2⟩

/-- C10: an all-digits userId parses as a JS number, so `getUserById` answers
404 "User not found" for it against EVERY store — including one holding a
user whose 24-hex-digit identifier is all digits — while `deleteUser` applies
no numeric-id rejection and reaches the store (200 for an existing user). -/
theorem numericId_404_but_deleteUser_unaffected :
    (∀ (store : Store) (requester : User) (userId : String),
      userId ≠ "" → userId.toList.all Char.isDigit = true → requester.role = "admin" →
      getUserById userId (some requester) store = ⟨404, some "User not found", none⟩) ∧
    (∀ (store : Store) (u : User) (requesterId : String),
      u.id.length = 24 → u.id.toList.all Char.isDigit = true →
      findById u.id store = some u →
      (deleteUser u.id requesterId "admin" store).1.status = 200) := by
  constructor
  · intro store requester userId h0 hdig hadmin
    have hd : ∀ c ∈ userId.toList, c.isDigit = true := by
      simpa [List.all_eq_true] using hdig
    have hscript := containsScriptTag_of_digits userId hd
    have hnan := jsIsNaNStr_of_digits userId h0 hd
    unfold getUserById
    simp [hadmin, hscript, hnan]
  · intro store u rid h24 hdig hfind
    have hd : ∀ c ∈ u.id.toList, c.isDigit = true := by
      simpa [List.all_eq_true] using hdig
    have hvalid : isValidObjectId u.id = true := by
      simp only [isValidObjectId, Bool.or_eq_true, Bool.and_eq_true, beq_iff_eq,
        List.all_eq_true]
      exact Or.inr ⟨h24, fun c hc => digit_isHex c (hd c hc)⟩
    unfold deleteUser
    rw [hvalid]
    simp only [Bool.not_true, Bool.false_eq_true, if_false, hfind]
    by_cases hr : rid = u.id <;> simp [hr]

/-- A user whose 24-character hex identifier happens to be all digits. -/
def uDigits : User :=
  { id := "111111111111111111111111", name := "Digit", displayName := "",
    email := "digit@example.com", password := .hashed 3 "Password789",
    profilePicture := "", bio := "", interests := [],
    resetPasswordToken := none, resetPasswordExpires := none, role := "user",
    active := true, isPrivate := false, followers := [], following := [] }

/-- An admin user for witnesses. -/
def uAdmin : User :=
  { id := "adadadadadadadadadadadad", name := "Root", displayName := "",
    email := "root@example.com", password := .hashed 4 "RootPassword",
    profilePicture := "", bio := "", interests := [],
    resetPasswordToken := none, resetPasswordExpires := none, role := "admin",
    active := true, isPrivate := false, followers := [], following := [] }

/-- Witness for C10: the all-digit id "111111111111111111111111" exists in the
store; an admin GET on it is 404 while an admin DELETE on it is 200. -/
theorem numericId_404_but_deleteUser_unaffected_witness :
    getUserById "111111111111111111111111" (some uAdmin) [uDigits]
      = ⟨404, some "User not found", none⟩ ∧
    (deleteUser "111111111111111111111111" "adadadadadadadadadadadad" "admin" [uDigits]).1.status
      = 200 :=
  ⟨numericId_404_but_deleteUser_unaffected.1 [uDigits] uAdmin "111111111111111111111111"
      (by decide) (by decide) rfl,
    numericId_404_but_deleteUser_unaffected.2 [uDigits] uDigits "adadadadadadadadadadadad"
      (by decide) (by decide) (by decide)⟩

/-- C5: a valid signup persists exactly one new user whose email is the
submitted email lowercased and trimmed, and whose stored password field is a
salted hash, never the submitted plaintext. -/
theorem registerUser_normalizes_and_hashes
    (name email password newId : String) (salt : Nat) (store : Store)
    (hfree : findOneByEmail (jsTrim (jsLower email)) store = none)
    (hname : (isLatinName name || isUnicodeName name) = true)
    (hn : jsTrim name ≠ "")
    (hfmt : emailMatchLoose (jsTrim (jsLower email)) = true)
    (hnz : jsTrim (jsLower email) ≠ "")
    (hpl : 8 ≤ password.length) :
    ∃ newUser : User,
      registerUser name email password newId salt store
        = (⟨201, "User registered successfully."⟩, store ++ [newUser]) ∧
      newUser.email = jsTrim (jsLower email) ∧
      newUser.password = PwField.hashed salt password ∧
      newUser.password ≠ PwField.plain password := by
  refine ⟨{
    id := newId, name := jsTrim name, displayName := "",
    email := jsTrim (jsLower email), password := PwField.hashed salt password,
    profilePicture := "", bio := "", interests := [],
    resetPasswordToken := none, resetPasswordExpires := none, role := "user",
    active := true, isPrivate := false, followers := [], following := [] },
    ?_, rfl, rfl, by simp⟩
  have hval : userValidate {
      id := newId, name := jsTrim name, displayName := "",
      email := jsTrim (jsLower email), password := PwField.plain password,
      profilePicture := "", bio := "", interests := [],
      resetPasswordToken := none, resetPasswordExpires := none, role := "user",
      active := true, isPrivate := false, followers := [], following := [] } = true := by
    simp [userValidate, hn, hnz, hfmt, hpl]
  simp only [registerUser, hfree, hname, Bool.not_true, Bool.false_eq_true, if_false, hval,
    if_true]
  rfl

/-- Witness for C5 at a concrete signup whose email needs both lowercasing
and trimming. -/
theorem registerUser_normalizes_and_hashes_witness :
    ∃ newUser : User,
      registerUser "John" " John@X.com " "Password1" "c3c3c3c3c3c3c3c3c3c3c3c3" 7 []
        = (⟨201, "User registered successfully."⟩, [] ++ [newUser]) ∧
      newUser.email = jsTrim (jsLower " John@X.com ") ∧
      newUser.password = PwField.hashed 7 "Password1" ∧
      newUser.password ≠ PwField.plain "Password1" :=
  registerUser_normalizes_and_hashes "John" " John@X.com " "Password1"
    "c3c3c3c3c3c3c3c3c3c3c3c3" 7 []
    (by decide) (by decide) (by decide) (by decide) (by decide) (by decide)

/-- A private account whose followers list contains Bob. -/
def uPrivate : User :=
  { id := "f1f1f1f1f1f1f1f1f1f1f1f1", name := "Priva", displayName := "",
    email := "priva@example.com", password := .hashed 5 "Password000",
    profilePicture := "", bio := "", interests := [],
    resetPasswordToken := none, resetPasswordExpires := none, role := "user",
    active := true, isPrivate := true,
    followers := ["b2b2b2b2b2b2b2b2b2b2b2b2"], following := [] }

/-- C4 failing input: Bob IS in the private account's followers list, yet
`getFollowers` answers 403 — the membership test compares the populated
follower subdocuments against the requester id string and never succeeds —
where the claim requires the populated follower summaries. -/
theorem getFollowers_denies_actual_follower :
    getFollowers "f1f1f1f1f1f1f1f1f1f1f1f1" "b2b2b2b2b2b2b2b2b2b2b2b2" [uPrivate, uBob]
      = ⟨403, some "This user\x27s followers list is private.", none⟩ := by
  decide

lemma selfFree_saveUser (store : Store) (u : User)
    (h : SelfFree store) (hu : u.id ∉ u.followers ∧ u.id ∉ u.following) :
    SelfFree (saveUser u store) := by
  intro v hv
  unfold saveUser at hv
  obtain ⟨w, hw, hmap⟩ := List.mem_map.1 hv
  by_cases hc : (w.id == u.id) = true
  · rw [if_pos hc] at hmap
    subst hmap
    exact hu
  · rw [if_neg hc] at hmap
    subst hmap
    exact h w hw

lemma selfFree_append_new (store : Store) (u : User)
    (h : SelfFree store) (hu : u.id ∉ u.followers ∧ u.id ∉ u.following) :
    SelfFree (store ++ [u]) := by
  intro v hv
  rcases List.mem_append.1 hv with hv2 | hv2
  · exact h v hv2
  · rw [List.mem_singleton.1 hv2]
    exact hu

/-- C6: no user ever appears in its own followers or following list — every
request preserves the invariant — and in particular self-follow and
self-unfollow are rejected with 400 before any list mutation. -/
theorem no_self_follow_invariant :
    (∀ (op : Op) (store : Store), SelfFree store → SelfFree (applyOp op store)) ∧
    (∀ (uid : String) (store : Store),
      followUser uid uid store = (⟨400, "You cannot follow yourself."⟩, store)) ∧
    (∀ (uid : String) (store : Store),
      (unfollowUser uid uid store).1.status = 400 ∧ (unfollowUser uid uid store).2 = store) := by
  refine ⟨?_, ?_, ?_⟩
  · intro op store h
    cases op with
    | register n e p i s =>
      show SelfFree (registerUser n e p i s store).2
      unfold registerUser
      cases hfind : findOneByEmail (jsTrim (jsLower e)) store with
      | some w => simp only [hfind]; exact h
      | none =>
        simp only [hfind]
        split
        · exact h
        split
        · exact selfFree_append_new store _ h (by simp)
        · exact h
    | signin e p => exact h
    | reset t np now s =>
      show SelfFree (resetPassword t np now s store).2
      unfold resetPassword
      split
      · exact h
      split
      · exact h
      split
      · exact h
      split
      · exact h
      split
      · exact h
      cases hfind : findByResetToken t now store with
      | none => simp only [hfind]; exact h
      | some user =>
        simp only [hfind]
        split
        · exact h
        split
        · exact selfFree_saveUser store _ h (h user (List.mem_of_find?_eq_some hfind))
        · exact h
    | update u r rr b =>
      show SelfFree (updateUser u r rr b store).2
      unfold updateUser
      split
      · exact h
      split
      · exact h
      split
      · exact h
      cases hfind : findById u store with
      | none => simp only [hfind]; exact h
      | some usr =>
        simp only [hfind]
        exact selfFree_saveUser store _ h (h usr (List.mem_of_find?_eq_some hfind))
    | delete u r rr =>
      show SelfFree (deleteUser u r rr store).2
      unfold deleteUser
      have hfilter : SelfFree (store.filter (fun v => v.id != u)) :=
        fun v hv => h v (List.mem_of_mem_filter hv)
      split
      · exact h
      split
      · exact h
      cases hfind : findById u store with
      | none => simp only [hfind]; exact h
      | some usr =>
        simp only [hfind]
        split
        · exact hfilter
        · exact hfilter
    | follow u c =>
      show SelfFree (followUser u c store).2
      unfold followUser
      split
      · exact h
      · rename_i hne
        cases hft : findById u store with
        | none =>
          cases hfc : findById c store with
          | none => simp only [hft, hfc]; exact h
          | some cu => simp only [hft, hfc]; exact h
        | some t =>
          cases hfc : findById c store with
          | none => simp only [hft, hfc]; exact h
          | some cu =>
            simp only [hft, hfc]
            split
            · exact h
            · have hcid : cu.id = c := by simpa using List.find?_some hfc
              have htid : t.id = u := by simpa using List.find?_some hft
              have hnuc : u ≠ c := by simpa using hne
              have hmc := h cu (List.mem_of_find?_eq_some hfc)
              have hmt := h t (List.mem_of_find?_eq_some hft)
              apply selfFree_saveUser
              · apply selfFree_saveUser store _ h
                refine ⟨hmc.1, ?_⟩
                intro hmem
                rcases List.mem_append.1 hmem with hm | hm
                · exact hmc.2 hm
                · rw [List.mem_singleton, hcid] at hm
                  exact hnuc hm.symm
              · refine ⟨?_, hmt.2⟩
                intro hmem
                rcases List.mem_append.1 hmem with hm | hm
                · exact hmt.1 hm
                · rw [List.mem_singleton, htid] at hm
                  exact hnuc hm
    | unfollow u c =>
      show SelfFree (unfollowUser u c store).2
      unfold unfollowUser
      split
      · exact h
      split
      · exact h
      · cases hft : findById u store with
        | none =>
          cases hfc : findById c store with
          | none => simp only [hft, hfc]; exact h
          | some cu => simp only [hft, hfc]; exact h
        | some t =>
          cases hfc : findById c store with
          | none => simp only [hft, hfc]; exact h
          | some cu =>
            simp only [hft, hfc]
            split
            · exact h
            · have hmc := h cu (List.mem_of_find?_eq_some hfc)
              have hmt := h t (List.mem_of_find?_eq_some hft)
              apply selfFree_saveUser
              · apply selfFree_saveUser store _ h
                exact ⟨hmc.1, fun hm => hmc.2 (List.mem_of_mem_filter hm)⟩
              · exact ⟨fun hm => hmt.1 (List.mem_of_mem_filter hm), hmt.2⟩
  · intro uid store
    simp [followUser]
  · intro uid store
    cases hv : isValidObjectId uid with
    | false => constructor <;> simp [unfollowUser, hv]
    | true => constructor <;> simp [unfollowUser, hv]

/-- Witness for C6: one follow request on a concrete self-free store, and a
concrete self-follow rejection. -/
theorem no_self_follow_invariant_witness :
    SelfFree (applyOp (Op.follow "a1a1a1a1a1a1a1a1a1a1a1a1" "b2b2b2b2b2b2b2b2b2b2b2b2")
      [uAlice, uBob]) ∧
    followUser "a1a1a1a1a1a1a1a1a1a1a1a1" "a1a1a1a1a1a1a1a1a1a1a1a1" [uAlice]
      = (⟨400, "You cannot follow yourself."⟩, [uAlice]) :=
  ⟨no_self_follow_invariant.1 _ [uAlice, uBob] (by unfold SelfFree; decide),
    no_self_follow_invariant.2.1 "a1a1a1a1a1a1a1a1a1a1a1a1" [uAlice]⟩

/-- After replacing the (first) user found by email with an update carrying
the same id and email, the email lookup finds the updated document. -/
lemma findOneByEmail_saveUser (e : String) (store : Store) (u u2 : User)
    (h : findOneByEmail e store = some u) (hid : u2.id = u.id) (he : u2.email = u.email) :
    findOneByEmail e (saveUser u2 store) = some u2 := by
  induction store with
  | nil => simp [findOneByEmail] at h
  | cons v rest ih =>
    unfold findOneByEmail saveUser at *
    rw [List.map_cons]
    by_cases hv : (v.email == e) = true
    · have hstep : List.find? (fun w => w.email == e) (v :: rest) = some v :=
        List.find?_cons_of_pos rest hv
      rw [hstep] at h
      have huv : v = u := by injection h
      have hvid : (v.id == u2.id) = true := by rw [huv, hid]; simp
      rw [if_pos hvid]
      have hu2 : (u2.email == e) = true := by rw [he, ← huv]; exact hv
      exact List.find?_cons_of_pos _ hu2
    · have hstep : List.find? (fun w => w.email == e) (v :: rest)
          = List.find? (fun w => w.email == e) rest :=
        List.find?_cons_of_neg rest hv
      rw [hstep] at h
      have hue := List.find?_some h
      by_cases hvid : (v.id == u2.id) = true
      · rw [if_pos hvid]
        have hu2 : (u2.email == e) = true := by rw [he]; exact hue
        exact List.find?_cons_of_pos _ hu2
      · rw [if_neg hvid]
        have hstep2 : List.find? (fun w => w.email == e)
            (v :: List.map (fun w => if (w.id == u2.id) = true then u2 else w) rest)
            = List.find? (fun w => w.email == e)
              (List.map (fun w => if (w.id == u2.id) = true then u2 else w) rest) :=
          List.find?_cons_of_neg _ hv
        rw [hstep2]
        exact ih h


/-- After saving a document whose reset-token field is cleared, the token
lookup finds nothing, provided the consumed token identified only that
document. -/
lemma findByResetToken_saveUser_none (token : String) (now : Nat) (store : Store)
    (u2 : User) (hclear : u2.resetPasswordToken = none)
    (huniq : ∀ v ∈ store, v.resetPasswordToken = some token → v.id = u2.id) :
    findByResetToken token now (saveUser u2 store) = none := by
  unfold findByResetToken saveUser
  refine List.find?_eq_none.2 ?_
  intro w hw hp
  obtain ⟨v, hv, hmap⟩ := List.mem_map.1 hw
  rw [Bool.and_eq_true] at hp
  have h2 : w.resetPasswordToken = some token := by simpa using hp.1
  by_cases hvi : (v.id == u2.id) = true
  · rw [if_pos hvi] at hmap
    subst hmap
    rw [hclear] at h2
    cases h2
  · rw [if_neg hvi] at hmap
    subst hmap
    exact hvi (by simp [huniq v hv h2])

/-- The document as persisted by a successful `resetPassword`: new hashed
password, reset-token fields cleared. -/
def resetApplied (u : User) (pw : String) (salt : Nat) : User :=
  { u with
    password := PwField.hashed salt pw,
    resetPasswordToken := none,
    resetPasswordExpires := none }

/-- C1: for a user holding a pending, unexpired reset token, `resetPassword`
with a valid new password succeeds; a subsequent `signin` with the user's
email and the new password succeeds; the stored reset-token fields are
cleared; and a second `resetPassword` with the same token fails with the
invalid-or-expired-token error. -/
theorem resetPassword_roundtrip
    (store : Store) (u : User) (token pw : String) (now now2 salt salt2 : Nat)
    (htok : token ≠ "")
    (hfind : findByResetToken token now store = some u)
    (hactive : u.active = true)
    (hpw0 : pw ≠ "") (hpw8 : 8 ≤ pw.length) (hpw64 : pw.length ≤ 64)
    (hws : hasWhitespace pw = false)
    (hmail : findOneByEmail u.email store = some u)
    (hnorm : jsTrim (jsLower u.email) = u.email)
    (hval : userValidate { u with
      password := PwField.plain pw,
      resetPasswordToken := none,
      resetPasswordExpires := none } = true)
    (huniq : ∀ v ∈ store, v.resetPasswordToken = some token → v.id = u.id) :
    (resetPassword token pw now salt store).1
      = ⟨200, "Password reset successfully. You can now sign in."⟩ ∧
    signInUser u.email pw (resetPassword token pw now salt store).2
      = ⟨200, "Welcome back, " ++ u.name ++ "!"⟩ ∧
    (∃ u2, findOneByEmail u.email (resetPassword token pw now salt store).2 = some u2 ∧
      u2.resetPasswordToken = none ∧ u2.resetPasswordExpires = none) ∧
    resetPassword token pw now2 salt2 (resetPassword token pw now salt store).2
      = (⟨400, "Invalid or expired password reset token."⟩,
        (resetPassword token pw now salt store).2) := by
  have e1 : (token == "") = false := by simp [htok]
  have e2 : (pw == "") = false := by simp [hpw0]
  have hred : resetPassword token pw now salt store
      = (⟨200, "Password reset successfully. You can now sign in."⟩,
        saveUser (resetApplied u pw salt) store) := by
    unfold resetPassword
    simp only [e1, e2, hws, Bool.false_eq_true, if_false, hfind]
    rw [if_neg (by omega : ¬ pw.length < 8), if_neg (by omega : ¬ pw.length > 64),
      if_neg (by simp [hactive] : ¬ (!u.active) = true), if_pos hval]
    rfl
  have store2def : (resetPassword token pw now salt store).2
      = saveUser (resetApplied u pw salt) store := by rw [hred]
  have hf : findOneByEmail u.email (saveUser (resetApplied u pw salt) store)
      = some (resetApplied u pw salt) :=
    findOneByEmail_saveUser u.email store u (resetApplied u pw salt) hmail rfl rfl
  refine ⟨by rw [hred], ?_, ?_, ?_⟩
  · rw [store2def]
    unfold signInUser
    rw [hnorm]
    simp only [hf]
    simp [resetApplied, bcryptCompare]
  · rw [store2def]
    exact ⟨resetApplied u pw salt, hf, rfl, rfl⟩
  · rw [store2def]
    have hnone : findByResetToken token now2 (saveUser (resetApplied u pw salt) store)
        = none :=
      findByResetToken_saveUser_none token now2 store (resetApplied u pw salt) rfl
        (fun v hv hvt => huniq v hv hvt)
    unfold resetPassword
    simp only [e1, e2, hws, Bool.false_eq_true, if_false, hnone]
    rw [if_neg (by omega : ¬ pw.length < 8), if_neg (by omega : ¬ pw.length > 64)]

/-- A user holding a pending, unexpired password-reset token. -/
def uReset : User :=
  { id := "e5e5e5e5e5e5e5e5e5e5e5e5", name := "Resetta", displayName := "",
    email := "reset@example.com", password := .hashed 6 "OldPassword1",
    profilePicture := "", bio := "", interests := [],
    resetPasswordToken := some "resettoken123", resetPasswordExpires := some 1000,
    role := "user", active := true, isPrivate := false, followers := [], following := [] }

/-- Witness for C1: a concrete reset at time 500 (token expires at 1000),
signin with the new password, and a failed second reset at time 600. -/
theorem resetPassword_roundtrip_witness :
    (resetPassword "resettoken123" "NewPassword1" 500 9 [uReset]).1
      = ⟨200, "Password reset successfully. You can now sign in."⟩ ∧
    signInUser "reset@example.com" "NewPassword1"
        (resetPassword "resettoken123" "NewPassword1" 500 9 [uReset]).2
      = ⟨200, "Welcome back, " ++ uReset.name ++ "!"⟩ ∧
    (∃ u2, findOneByEmail "reset@example.com"
        (resetPassword "resettoken123" "NewPassword1" 500 9 [uReset]).2 = some u2 ∧
      u2.resetPasswordToken = none ∧ u2.resetPasswordExpires = none) ∧
    resetPassword "resettoken123" "NewPassword1" 600 10
        (resetPassword "resettoken123" "NewPassword1" 500 9 [uReset]).2
      = (⟨400, "Invalid or expired password reset token."⟩,
        (resetPassword "resettoken123" "NewPassword1" 500 9 [uReset]).2) :=
  resetPassword_roundtrip [uReset] uReset "resettoken123" "NewPassword1" 500 600 9 10
    (by decide) (by decide) rfl (by decide) (by decide) (by decide) (by decide)
    (by decide) (by decide) (by decide) (by decide)
